import Mathlib

/-!
Shallow embedding of the RTP/RTCP transport node of OvenMediaEngine:
the node orchestrator `RtpRtcp` (`rtp_rtcp.cpp`) and the RTCP Sender
Report generator `RtcpSRGenerator` (`rtcp_sr_generator.cpp`), together
with proofs of the classification, scheduling, lifecycle and
state-update properties stated in the specification.

Modelling conventions:
* Wall-clock time is milliseconds as `Nat`; every call of
  `std::chrono::system_clock::now()` in the source becomes an explicit
  `now : Nat` argument threaded into the operation.
* `std::map` tables become association lists over `Nat` keys with
  `operator[]`-style insert-or-replace.
* The downward transport (`SendDataToNextNode`) is a collaborator: a
  function `NodeType → WireData → Bool`; every send attempt is also
  recorded in order in the `sent` field of the node state.
* Collaborator classes that are not part of the two source files
  (`RtpReceiveStatistics`, the jitter buffers, the compound RTCP
  parser, the `ov::Node` base class) are modelled from the
  specification's interface description; each such definition is
  marked `Modelled from the spec:` in its doc comment.
-/

/-- Modelled from the spec: lifecycle state enumeration of the `ov::Node`
base class (not under the two source files): Created → Ready → Started →
Stopped. -/
inductive NodeState
  | Created
  | Ready
  | Started
  | Stopped
deriving DecidableEq

/-- Node kinds used by this component when talking to the transport below
(`NodeType::Rtp`, `NodeType::Rtcp`). -/
inductive NodeType
  | Rtp
  | Rtcp
deriving DecidableEq

/-- Origin bitstream formats distinguished by `AddRtpReceiver` and
`OnRtpReceived`; `other` stands for every remaining member of
`cmn::BitstreamFormat`. -/
inductive BitstreamFormat
  | H264_RTP_RFC_6184
  | VP8_RTP_RFC_7741
  | AAC_MPEG4_GENERIC
  | OPUS_RTP_RFC_7587
  | other (code : Nat)
deriving DecidableEq

/-- The part of `MediaTrack` consumed by the source: origin bitstream
format and the timebase denominator. -/
structure MediaTrack where
  origin_bitstream : BitstreamFormat
  timebase_den : Nat
deriving DecidableEq

/-- The part of a parsed `RtpPacket` consumed by the source:
`PayloadType()`, `Ssrc()`, `Timestamp()`, `PayloadSize()`. -/
structure RtpPacket where
  payload_type : Nat
  ssrc : Nat
  timestamp : Nat
  payload_size : Nat
deriving DecidableEq

/-- The RTCP Sender Report fields set by `RtcpSRGenerator`. -/
structure SenderReport where
  sender_ssrc : Nat
  msw : Nat
  lsw : Nat
  timestamp : Nat
  packet_count : Nat
  octet_count : Nat
deriving DecidableEq

/-- Modelled from the spec: one report block produced by a statistics
entry (`build_report_block()`); its internal fields are outside the two
source files, so it carries the source SSRC and the entry's packet
record count. -/
structure ReportBlock where
  ssrc : Nat
  packet_records : Nat
deriving DecidableEq

/-- The RTCP Receiver Report fields set by `OnRtpReceived`. -/
structure ReceiverReport where
  rtp_payload_type : Nat
  sender_ssrc : Nat
  report_blocks : List ReportBlock
deriving DecidableEq

/-- The FIR message fields set by `SendFir`: the requester SSRC and
(target media SSRC, sequence number) pairs. -/
structure FIR where
  src_ssrc : Nat
  messages : List (Nat × Nat)
deriving DecidableEq

/-- Typed RTCP message payloads (`RtcpInfo` subclasses used by the
source); `otherInfo` stands for every remaining RTCP packet type. -/
inductive RtcpInfo
  | sr (r : SenderReport)
  | rr (r : ReceiverReport)
  | fir (f : FIR)
  | otherInfo (kind : Nat)
deriving DecidableEq

/-- Modelled from the spec: `RtcpPacket` (not under the two source
files) wraps one RTCP message; `Build` stores the message. -/
structure RtcpPacket where
  info : RtcpInfo
deriving DecidableEq

/-- Modelled from the spec: `RtcpPacket::Build` wraps an RTCP message as
a packet. -/
def RtcpPacket.build (i : RtcpInfo) : RtcpPacket := { info := i }

/-- Integer part of `rtp_timestamp / codec_rate`, the `msw` of the SR
timestamp pair.  The source computes this with `double` arithmetic and
`modf`; the model uses the exact integer value. -/
def ntpMsw (timestamp codec_rate : Nat) : Nat := timestamp / codec_rate

/-- The `lsw` of the SR timestamp pair.  The source computes
`(fraction_ms * 1000) * 2^32 * 1e-6` with `double` arithmetic, which is
mathematically `fractional-seconds * 2^32`; the model uses the exact
rational value, floored. -/
def ntpLsw (timestamp codec_rate : Nat) : Nat :=
  timestamp % codec_rate * 4294967296 / codec_rate

/-- State of `RtcpSRGenerator`: sender SSRC, codec clock rate, creation
and last-report times, cumulative packet/octet counters (the source's
`_octec_count` spelling is kept), the emitted-report counter, and the
not-yet-consumed report slot. -/
structure RtcpSRGenerator where
  ssrc : Nat
  codec_rate : Nat
  created_time : Nat
  last_generated_time : Nat
  packet_count : Nat
  octec_count : Nat
  rtcp_generated_count : Nat
  rtcp_packet : Option RtcpPacket
deriving DecidableEq

/-- Constructor `RtcpSRGenerator::RtcpSRGenerator`: both timestamps are
set to the creation time. -/
def RtcpSRGenerator.create (ssrc codec_rate now : Nat) : RtcpSRGenerator :=
  { ssrc := ssrc, codec_rate := codec_rate, created_time := now,
    last_generated_time := now, packet_count := 0, octec_count := 0,
    rtcp_generated_count := 0, rtcp_packet := none }

/-- `RtcpSRGenerator::GetElapsedTimeMSFromCreated`. -/
def RtcpSRGenerator.GetElapsedTimeMSFromCreated (g : RtcpSRGenerator) (now : Nat) : Nat :=
  now - g.created_time

/-- `RtcpSRGenerator::GetElapsedTimeMSFromRtcpSRGenerated`. -/
def RtcpSRGenerator.GetElapsedTimeMSFromRtcpSRGenerated (g : RtcpSRGenerator) (now : Nat) : Nat :=
  now - g.last_generated_time

/-- The emission condition of `AddRTPPacketAndGenerateRtcpSR`:
`(GetElapsedTimeMSFromCreated() < 10000 && GetElapsedTimeMSFromRtcpSRGenerated() > 500)
 || GetElapsedTimeMSFromRtcpSRGenerated() > 4999`. -/
def SRbuilds (g : RtcpSRGenerator) (now : Nat) : Bool :=
  (decide (g.GetElapsedTimeMSFromCreated now < 10000) &&
      decide (500 < g.GetElapsedTimeMSFromRtcpSRGenerated now)) ||
    decide (4999 < g.GetElapsedTimeMSFromRtcpSRGenerated now)

/-- The Sender Report fields built inside `AddRTPPacketAndGenerateRtcpSR`
(after the counters were already incremented for the triggering packet). -/
def RtcpSRGenerator.buildSenderReport (g : RtcpSRGenerator) (p : RtpPacket) : SenderReport :=
  { sender_ssrc := g.ssrc, msw := ntpMsw p.timestamp g.codec_rate,
    lsw := ntpLsw p.timestamp g.codec_rate, timestamp := p.timestamp,
    packet_count := g.packet_count, octet_count := g.octec_count }

/-- `RtcpSRGenerator::AddRTPPacketAndGenerateRtcpSR`: increment the
counters, then, when the emission condition holds, build the SR, store
it in the pending slot, reset the counters, refresh the last-report
time and bump the emitted-report counter. -/
def RtcpSRGenerator.AddRTPPacketAndGenerateRtcpSR (g : RtcpSRGenerator) (now : Nat)
    (p : RtpPacket) : RtcpSRGenerator :=
  let g1 := { g with packet_count := g.packet_count + 1,
                     octec_count := g.octec_count + p.payload_size }
  if SRbuilds g1 now then
    { g1 with
      rtcp_packet := some (RtcpPacket.build (RtcpInfo.sr (g1.buildSenderReport p))),
      packet_count := 0, octec_count := 0, last_generated_time := now,
      rtcp_generated_count := g1.rtcp_generated_count + 1 }
  else g1

/-- `RtcpSRGenerator::IsAvailableRtcpSRPacket`. -/
def RtcpSRGenerator.IsAvailableRtcpSRPacket (g : RtcpSRGenerator) : Bool :=
  g.rtcp_packet.isSome

/-- `RtcpSRGenerator::PopRtcpSRPacket`: move out the pending report,
leaving none pending. -/
def RtcpSRGenerator.PopRtcpSRPacket (g : RtcpSRGenerator) :
    Option RtcpPacket × RtcpSRGenerator :=
  (g.rtcp_packet, { g with rtcp_packet := none })

/-- Modelled from the spec: the statistics-entry collaborator
`RtpReceiveStatistics` (not under the two source files).  Its interface,
taken from the spec, is: record an RTP packet, report whether the
receiver-report interval has elapsed, build a report block, record an
incoming Sender Report, expose the receiver's own SSRC and the payload
type, and count FIR requests (`fir_requests_sent` / `note_fir_sent`,
the latter incrementing the counter by one). -/
structure RtpReceiveStatistics where
  payload_type : Nat
  ssrc : Nat
  timebase_den : Nat
  receiver_ssrc : Nat
  packet_records : Nat
  ms_since_last_report_block : Nat
  fir_request_count : Nat
  sender_reports_received : Nat
deriving DecidableEq

/-- Modelled from the spec: constructor
`RtpReceiveStatistics(payload_type, ssrc, timebase denominator)`; the
receiver's own SSRC is chosen internally by the real class and is held
abstract here as 0. -/
def RtpReceiveStatistics.create (payload_type ssrc timebase_den : Nat) :
    RtpReceiveStatistics :=
  { payload_type := payload_type, ssrc := ssrc, timebase_den := timebase_den,
    receiver_ssrc := 0, packet_records := 0, ms_since_last_report_block := 0,
    fir_request_count := 0, sender_reports_received := 0 }

/-- Modelled from the spec: `record(rtp_packet)` registers one received
packet. -/
def RtpReceiveStatistics.AddReceivedRtpPacket (s : RtpReceiveStatistics)
    (_p : RtpPacket) : RtpReceiveStatistics :=
  { s with packet_records := s.packet_records + 1 }

/-- Modelled from the spec: `report_interval_elapsed(interval_ms)`; the
milliseconds elapsed since the last report block are a field of the
model state. -/
def RtpReceiveStatistics.HasElapsedSinceLastReportBlock (s : RtpReceiveStatistics)
    (interval_ms : Nat) : Bool :=
  decide (interval_ms ≤ s.ms_since_last_report_block)

/-- Modelled from the spec: `build_report_block()`. -/
def RtpReceiveStatistics.GenerateReportBlock (s : RtpReceiveStatistics) : ReportBlock :=
  { ssrc := s.ssrc, packet_records := s.packet_records }

/-- Modelled from the spec: `record_sender_report(sr)`. -/
def RtpReceiveStatistics.AddReceivedRtcpSenderReport (s : RtpReceiveStatistics)
    (_sr : SenderReport) : RtpReceiveStatistics :=
  { s with sender_reports_received := s.sender_reports_received + 1 }

/-- Modelled from the spec: `receiver_ssrc()` accessor. -/
def RtpReceiveStatistics.GetReceiverSSRC (s : RtpReceiveStatistics) : Nat :=
  s.receiver_ssrc

/-- Modelled from the spec: `payload_type()` accessor. -/
def RtpReceiveStatistics.GetPayloadType (s : RtpReceiveStatistics) : Nat :=
  s.payload_type

/-- Modelled from the spec: `fir_requests_sent()` accessor. -/
def RtpReceiveStatistics.GetNumberOfFirRequests (s : RtpReceiveStatistics) : Nat :=
  s.fir_request_count

/-- Modelled from the spec: `note_fir_sent()` increments the FIR-request
counter by one. -/
def RtpReceiveStatistics.OnFirRequested (s : RtpReceiveStatistics) :
    RtpReceiveStatistics :=
  { s with fir_request_count := s.fir_request_count + 1 }

/-- Modelled from the spec: the frame-reassembling jitter buffer
collaborator (out of scope for the core).  It stores inserted packets;
frame availability is abstracted as never-available, which no claim
depends on. -/
structure RtpFrameJitterBuffer where
  packets : List RtpPacket
deriving DecidableEq

/-- Modelled from the spec: `insert(packet)` of the frame-class buffer. -/
def RtpFrameJitterBuffer.InsertPacket (b : RtpFrameJitterBuffer) (p : RtpPacket) :
    RtpFrameJitterBuffer :=
  { b with packets := b.packets ++ [p] }

/-- Modelled from the spec: `pop_available_frame()`, abstracted as
never producing a frame.  A produced frame would expose its packets in
order. -/
def RtpFrameJitterBuffer.PopAvailableFrame (_b : RtpFrameJitterBuffer) :
    Option (List RtpPacket) :=
  none

/-- Modelled from the spec: the minimal/pass-through jitter buffer
collaborator. -/
structure RtpMinimalJitterBuffer where
  packets : List RtpPacket
deriving DecidableEq

/-- Modelled from the spec: `insert(packet)` of the minimal buffer. -/
def RtpMinimalJitterBuffer.InsertPacket (b : RtpMinimalJitterBuffer) (p : RtpPacket) :
    RtpMinimalJitterBuffer :=
  { b with packets := b.packets ++ [p] }

/-- Modelled from the spec: `pop_available_packet()`, abstracted as
never releasing a packet. -/
def RtpMinimalJitterBuffer.PopAvailablePacket (_b : RtpMinimalJitterBuffer) :
    Option RtpPacket :=
  none

/-- A datagram or packet handed to the transport below. -/
inductive WireData
  | rtp (p : RtpPacket)
  | rtcp (p : RtcpPacket)
deriving DecidableEq

/-- Deliveries to the upward observer: a reassembled frame (ordered
packets) or one RTCP message. -/
inductive ObsEvent
  | frame (packets : List RtpPacket)
  | rtcpMsg (info : RtcpInfo)
deriving DecidableEq

/-- Lookup in a `std::map`-style table keyed by `Nat`. -/
def alistFind {α : Type} (k : Nat) : List (Nat × α) → Option α
  | [] => none
  | (k', v) :: rest => if k' = k then some v else alistFind k rest

/-- `operator[]`-style insert-or-replace in a `std::map`-style table. -/
def alistInsert {α : Type} (k : Nat) (v : α) : List (Nat × α) → List (Nat × α)
  | [] => [(k, v)]
  | (k', v') :: rest =>
    if k' = k then (k, v) :: rest else (k', v') :: alistInsert k v rest

/-- The jitter-buffer class selected from a track's origin bitstream
format — the switch appearing (identically) in `AddRtpReceiver` and in
`OnRtpReceived`: 1 = frame-reassembling, 2 = minimal, 0 = unsupported
(the `default` branch). -/
def jitterClass : BitstreamFormat → Nat
  | BitstreamFormat.H264_RTP_RFC_6184 => 1
  | BitstreamFormat.VP8_RTP_RFC_7741 => 1
  | BitstreamFormat.AAC_MPEG4_GENERIC => 1
  | BitstreamFormat.OPUS_RTP_RFC_7587 => 2
  | BitstreamFormat.other _ => 0

/-- A format is supported by `AddRtpReceiver` when its switch does not
fall into the `default` branch. -/
def supportedFormat (f : BitstreamFormat) : Bool :=
  decide (jitterClass f ≠ 0)

/-- State of the `RtpRtcp` node: lifecycle state, observer reference,
the registration tables, the receive-statistics table, the last-sent
introspection slots, the ordered record of downward send attempts, and
the ordered record of observer deliveries. -/
structure RtpRtcp where
  node_state : NodeState
  observer : Bool
  rtcp_sr_generators : List (Nat × RtcpSRGenerator)
  tracks : List (Nat × MediaTrack)
  rtp_frame_jitter_buffers : List (Nat × RtpFrameJitterBuffer)
  rtp_minimal_jitter_buffers : List (Nat × RtpMinimalJitterBuffer)
  receive_statistics : List (Nat × RtpReceiveStatistics)
  last_sent_rtp_packet : Option RtpPacket
  last_sent_rtcp_packet : Option RtcpPacket
  sent : List (NodeType × WireData)
  observer_events : List ObsEvent
deriving DecidableEq

/-- Constructor `RtpRtcp::RtpRtcp(observer)`: stores the observer; the
`ov::Node` base class starts in the Created lifecycle state. -/
def RtpRtcp.create (observer : Bool) : RtpRtcp :=
  { node_state := NodeState.Created, observer := observer,
    rtcp_sr_generators := [], tracks := [], rtp_frame_jitter_buffers := [],
    rtp_minimal_jitter_buffers := [], receive_statistics := [],
    last_sent_rtp_packet := none, last_sent_rtcp_packet := none,
    sent := [], observer_events := [] }

/-- `RtpRtcp::AddRtcpSRGenerator`: only in Ready; registers a fresh SR
generator for the payload type. -/
def RtpRtcp.AddRtcpSRGenerator (s : RtpRtcp) (now payload_type ssrc codec_rate : Nat) :
    Bool × RtpRtcp :=
  if s.node_state ≠ NodeState.Ready then (false, s)
  else
    (true, { s with rtcp_sr_generators :=
                      alistInsert payload_type
                        (RtcpSRGenerator.create ssrc codec_rate now)
                        s.rtcp_sr_generators })

/-- `RtpRtcp::AddRtpReceiver`: only in Ready; stores the track, then
registers the jitter buffer selected by the track's origin bitstream
format, failing on an unsupported format (with the track already
stored). -/
def RtpRtcp.AddRtpReceiver (s : RtpRtcp) (payload_type : Nat) (track : MediaTrack) :
    Bool × RtpRtcp :=
  if s.node_state ≠ NodeState.Ready then (false, s)
  else
    let s1 := { s with tracks := alistInsert payload_type track s.tracks }
    match jitterClass track.origin_bitstream with
    | 1 => (true, { s1 with rtp_frame_jitter_buffers :=
                              alistInsert payload_type { packets := [] }
                                s1.rtp_frame_jitter_buffers })
    | 2 => (true, { s1 with rtp_minimal_jitter_buffers :=
                              alistInsert payload_type { packets := [] }
                                s1.rtp_minimal_jitter_buffers })
    | _ => (false, s1)

/-- Modelled from the spec: `Start` of the `ov::Node` base class moves
Ready to Started. -/
def RtpRtcp.Start (s : RtpRtcp) : Bool × RtpRtcp :=
  if s.node_state = NodeState.Ready then
    (true, { s with node_state := NodeState.Started })
  else (false, s)

/-- `RtpRtcp::Stop`: drops the observer reference, then `Node::Stop`
(modelled from the spec) moves to Stopped. -/
def RtpRtcp.Stop (s : RtpRtcp) : Bool × RtpRtcp :=
  (true, { s with observer := false, node_state := NodeState.Stopped })

/-- `RtpRtcp::SendRtpPacket`: refuse unless Started; if an SR generator
is registered for the packet's payload type, feed it the packet and,
when a report is pending, pop it, remember it as last sent RTCP and
send it downward (the result of that send is only logged); finally
remember the packet as last sent RTP and forward it downward, returning
that send's result. -/
def RtpRtcp.SendRtpPacket (s : RtpRtcp) (send : NodeType → WireData → Bool)
    (now : Nat) (p : RtpPacket) : Bool × RtpRtcp :=
  if s.node_state ≠ NodeState.Started then (false, s)
  else
    let s1 :=
      match alistFind p.payload_type s.rtcp_sr_generators with
      | none => s
      | some gen =>
        let gen' := gen.AddRTPPacketAndGenerateRtcpSR now p
        match gen'.rtcp_packet with
        | some pkt =>
          { s with
            rtcp_sr_generators :=
              alistInsert p.payload_type { gen' with rtcp_packet := none }
                s.rtcp_sr_generators,
            last_sent_rtcp_packet := some pkt,
            sent := s.sent ++ [(NodeType.Rtcp, WireData.rtcp pkt)] }
        | none =>
          { s with rtcp_sr_generators :=
                     alistInsert p.payload_type gen' s.rtcp_sr_generators }
    (send NodeType.Rtp (WireData.rtp p),
     { s1 with last_sent_rtp_packet := some p,
               sent := s1.sent ++ [(NodeType.Rtp, WireData.rtp p)] })

/-- The FIR packet built by `SendFir` from a statistics entry: addressed
from the receiver's own SSRC, carrying the entry's FIR-request counter
modulo 256. -/
def firPacketFor (stat : RtpReceiveStatistics) (media_ssrc : Nat) : RtcpPacket :=
  RtcpPacket.build (RtcpInfo.fir
    { src_ssrc := stat.GetReceiverSSRC,
      messages := [(media_ssrc, stat.GetNumberOfFirRequests % 256)] })

/-- `RtpRtcp::SendFir`: fail when no statistics entry exists for the
SSRC; otherwise build the FIR packet, notify the entry, remember the
packet as last sent RTCP and forward it downward.  The source performs
no lifecycle-state check here. -/
def RtpRtcp.SendFir (s : RtpRtcp) (send : NodeType → WireData → Bool)
    (media_ssrc : Nat) : Bool × RtpRtcp :=
  match alistFind media_ssrc s.receive_statistics with
  | none => (false, s)
  | some stat =>
    let pkt := firPacketFor stat media_ssrc
    (send NodeType.Rtcp (WireData.rtcp pkt),
     { s with
       receive_statistics :=
         alistInsert media_ssrc stat.OnFirRequested s.receive_statistics,
       last_sent_rtcp_packet := some pkt,
       sent := s.sent ++ [(NodeType.Rtcp, WireData.rtcp pkt)] })

/-- `RtpRtcp::GetReceivedPayloadType`: 0 when the SSRC is unknown. -/
def RtpRtcp.GetReceivedPayloadType (s : RtpRtcp) (ssrc : Nat) : Nat :=
  match alistFind ssrc s.receive_statistics with
  | none => 0
  | some stat => stat.GetPayloadType

/-- Modelled from the spec: the receiver-report interval constant
`RECEIVER_REPORT_CYCLE_MS` (defined in a header outside the two source
files). -/
def RECEIVER_REPORT_CYCLE_MS : Nat := 500

/-- The statistics entry used by `OnRtpReceived` for a packet: the
existing entry for the packet's SSRC, or a freshly created one on first
sight, with the packet recorded into it. -/
def RtpRtcp.statForPacket (s : RtpRtcp) (track : MediaTrack) (p : RtpPacket) :
    RtpReceiveStatistics :=
  (match alistFind p.ssrc s.receive_statistics with
   | none => RtpReceiveStatistics.create p.payload_type p.ssrc track.timebase_den
   | some stat => stat).AddReceivedRtpPacket p

/-- The Receiver Report packet built by `OnRtpReceived` from a
statistics entry. -/
def rrPacketFor (stat : RtpReceiveStatistics) (p : RtpPacket) : RtcpPacket :=
  RtcpPacket.build (RtcpInfo.rr
    { rtp_payload_type := p.payload_type,
      sender_ssrc := stat.GetReceiverSSRC,
      report_blocks := [stat.GenerateReportBlock] })

/-- `RtpRtcp::OnRtpReceived` on an already-parsed packet: resolve the
track (fail if absent); create-or-fetch the statistics entry and record
the packet; when the receiver-report interval has elapsed, build an RR,
remember it as last sent RTCP and send it downward (result only
logged); then route the packet to the jitter buffer selected by the
track's bitstream class, failing when that buffer is missing; an
unsupported class only logs and the call still returns true. -/
def RtpRtcp.OnRtpReceived (s : RtpRtcp) (p : RtpPacket) : Bool × RtpRtcp :=
  match alistFind p.payload_type s.tracks with
  | none => (false, s)
  | some track =>
    let stat := s.statForPacket track p
    let s1 := { s with receive_statistics :=
                         alistInsert p.ssrc stat s.receive_statistics }
    let s2 :=
      if stat.HasElapsedSinceLastReportBlock RECEIVER_REPORT_CYCLE_MS then
        { s1 with
          last_sent_rtcp_packet := some (rrPacketFor stat p),
          sent := s1.sent ++ [(NodeType.Rtcp, WireData.rtcp (rrPacketFor stat p))] }
      else s1
    match jitterClass track.origin_bitstream with
    | 1 =>
      match alistFind p.payload_type s2.rtp_frame_jitter_buffers with
      | none => (false, s2)
      | some jb =>
        let jb' := jb.InsertPacket p
        let s3 := { s2 with rtp_frame_jitter_buffers :=
                              alistInsert p.payload_type jb'
                                s2.rtp_frame_jitter_buffers }
        match jb'.PopAvailableFrame with
        | none => (true, s3)
        | some frame =>
          if s3.observer then
            (true, { s3 with observer_events :=
                               s3.observer_events ++ [ObsEvent.frame frame] })
          else (true, s3)
    | 2 =>
      match alistFind p.payload_type s2.rtp_minimal_jitter_buffers with
      | none => (false, s2)
      | some jb =>
        let jb' := jb.InsertPacket p
        let s3 := { s2 with rtp_minimal_jitter_buffers :=
                              alistInsert p.payload_type jb'
                                s2.rtp_minimal_jitter_buffers }
        match jb'.PopAvailablePacket with
        | none => (true, s3)
        | some pk =>
          (true, { s3 with observer_events :=
                             s3.observer_events ++ [ObsEvent.frame [pk]] })
    | _ => (true, s2)

/-- `RtpRtcp::OnRtcpReceived`: delegate to the compound-packet parser
collaborator (a parameter, since `RtcpReceiver` is outside the two
source files); fail on a parse error, otherwise drain the decoded
messages in order, feeding Sender Reports into the matching statistics
entry and delivering every message to the observer when one is held. -/
def RtpRtcp.OnRtcpReceived (s : RtpRtcp)
    (parseCompound : List Nat → Option (List RtcpInfo)) (data : List Nat) :
    Bool × RtpRtcp :=
  match parseCompound data with
  | none => (false, s)
  | some infos =>
    (true, infos.foldl (fun st info =>
      let st1 :=
        match info with
        | RtcpInfo.sr sr =>
          match alistFind sr.sender_ssrc st.receive_statistics with
          | some stat =>
            { st with receive_statistics :=
                        alistInsert sr.sender_ssrc
                          (stat.AddReceivedRtcpSenderReport sr)
                          st.receive_statistics }
          | none => st
        | _ => st
      if st1.observer then
        { st1 with observer_events := st1.observer_events ++ [ObsEvent.rtcpMsg info] }
      else st1) s)

/-- Modelled from the spec: the minimum RTCP header size constant
`RTCP_HEADER_SIZE` (defined in a header outside the two source files);
an RTCP header is 4 bytes. -/
def RTCP_HEADER_SIZE : Nat := 4

/-- Outcome of the RFC 7983 / RFC 5761 first-two-byte classification. -/
inductive PacketKind
  | rtp
  | rtcp
  | reject
deriving DecidableEq

/-- The classification performed by `OnDataReceivedFromNextNode` after
its length check: byte 0 in `[128,191]` means RTP/RTCP, within which
byte 1 in `[192,223]` means RTCP and anything else RTP; any other
byte-0 value is rejected. -/
def classifyRtpRtcp (data : List Nat) : PacketKind :=
  let first_byte := data.getD 0 0
  if 128 ≤ first_byte ∧ first_byte ≤ 191 then
    let payload_type := data.getD 1 0
    if 192 ≤ payload_type ∧ payload_type ≤ 223 then PacketKind.rtcp
    else PacketKind.rtp
  else PacketKind.reject

/-- `RtpRtcp::OnDataReceivedFromNextNode`: refuse unless Started;
reject datagrams shorter than `RTCP_HEADER_SIZE`; classify the first
two bytes and dispatch to RTCP or RTP handling, rejecting everything
outside the RTP/RTCP band.  The `from_node` argument of the source is
unused by it and omitted; the RTP parser (`RtpPacket`'s constructor,
outside the two source files) is a collaborator parameter. -/
def RtpRtcp.OnDataReceivedFromNextNode (s : RtpRtcp)
    (parseRtp : List Nat → RtpPacket)
    (parseCompound : List Nat → Option (List RtcpInfo)) (data : List Nat) :
    Bool × RtpRtcp :=
  if s.node_state ≠ NodeState.Started then (false, s)
  else if data.length < RTCP_HEADER_SIZE then (false, s)
  else
    match classifyRtpRtcp data with
    | PacketKind.rtcp => s.OnRtcpReceived parseCompound data
    | PacketKind.rtp => s.OnRtpReceived (parseRtp data)
    | PacketKind.reject => (false, s)

/-- `RtpRtcp::GetLastSentRtpPacket`. -/
def RtpRtcp.GetLastSentRtpPacket (s : RtpRtcp) : Option RtpPacket :=
  s.last_sent_rtp_packet

/-- `RtpRtcp::GetLastSentRtcpPacket`. -/
def RtpRtcp.GetLastSentRtcpPacket (s : RtpRtcp) : Option RtcpPacket :=
  s.last_sent_rtcp_packet

lemma alistFind_insert_self {α : Type} (k : Nat) (v : α) (l : List (Nat × α)) :
    alistFind k (alistInsert k v l) = some v := by
  induction l with
  | nil => simp [alistInsert, alistFind]
  | cons hd tl ih =>
    obtain ⟨k', v'⟩ := hd
    by_cases hk : k' = k <;> simp [alistInsert, alistFind, hk, ih]

lemma srbuilds_iff (g : RtcpSRGenerator) (now : Nat) :
    SRbuilds g now = true ↔
      ((now - g.created_time < 10000 ∧ 500 < now - g.last_generated_time) ∨
        4999 < now - g.last_generated_time) := by
  simp [SRbuilds, RtcpSRGenerator.GetElapsedTimeMSFromCreated,
    RtcpSRGenerator.GetElapsedTimeMSFromRtcpSRGenerated]

lemma add_eq_of_build (g : RtcpSRGenerator) (now : Nat) (p : RtpPacket)
    (h : SRbuilds g now = true) :
    g.AddRTPPacketAndGenerateRtcpSR now p =
      { g with
        rtcp_packet := some (RtcpPacket.build (RtcpInfo.sr
          { sender_ssrc := g.ssrc, msw := ntpMsw p.timestamp g.codec_rate,
            lsw := ntpLsw p.timestamp g.codec_rate, timestamp := p.timestamp,
            packet_count := g.packet_count + 1,
            octet_count := g.octec_count + p.payload_size })),
        packet_count := 0, octec_count := 0, last_generated_time := now,
        rtcp_generated_count := g.rtcp_generated_count + 1 } := by
  have h2 : SRbuilds
      { g with packet_count := g.packet_count + 1,
               octec_count := g.octec_count + p.payload_size } now = true := h
  simp [RtcpSRGenerator.AddRTPPacketAndGenerateRtcpSR, h2,
    RtcpSRGenerator.buildSenderReport]

lemma add_eq_of_not_build (g : RtcpSRGenerator) (now : Nat) (p : RtpPacket)
    (h : SRbuilds g now = false) :
    g.AddRTPPacketAndGenerateRtcpSR now p =
      { g with packet_count := g.packet_count + 1,
               octec_count := g.octec_count + p.payload_size } := by
  have h2 : SRbuilds
      { g with packet_count := g.packet_count + 1,
               octec_count := g.octec_count + p.payload_size } now = false := h
  simp [RtcpSRGenerator.AddRTPPacketAndGenerateRtcpSR, h2]

/-- The trace of `AddRTPPacketAndGenerateRtcpSR` calls on one generator:
each call is a (time, packet) pair; the result is the final generator
state together with the list of times at which an SR was built. -/
def genTrace (g : RtcpSRGenerator) : List (Nat × RtpPacket) → RtcpSRGenerator × List Nat
  | [] => (g, [])
  | (t, p) :: rest =>
    let r := genTrace (g.AddRTPPacketAndGenerateRtcpSR t p) rest
    if SRbuilds g t then (r.1, t :: r.2) else r

/-- Chronological schedule: call times are nondecreasing and never lie
before `t0` (wall-clock time is monotone and the generator already
exists at `t0`). -/
def chrono (t0 : Nat) : List (Nat × RtpPacket) → Bool
  | [] => true
  | (t, _) :: rest => decide (t0 ≤ t) && chrono t rest

/-- Gap relation between a report time (or the creation time) and the
next report time, for a generator created at time `T`. -/
def SRgap (T x y : Nat) : Prop :=
  x ≤ y ∧ 500 < y - x ∧ (T + 10000 ≤ y → 4999 < y - x)

lemma chrono_mono (l : List (Nat × RtpPacket)) (a b : Nat) (hab : a ≤ b)
    (h : chrono b l = true) : chrono a l = true := by
  cases l with
  | nil => rfl
  | cons hd tl =>
    obtain ⟨t, p⟩ := hd
    simp only [chrono, Bool.and_eq_true, decide_eq_true_eq] at h ⊢
    exact ⟨le_trans hab h.1, h.2⟩

lemma genTrace_chain (calls : List (Nat × RtpPacket)) :
    ∀ g : RtcpSRGenerator, chrono g.last_generated_time calls = true →
      g.created_time ≤ g.last_generated_time →
      List.Chain' (SRgap g.created_time)
        (g.last_generated_time :: (genTrace g calls).2) := by
  induction calls with
  | nil => intro g _ _; simp [genTrace]
  | cons c rest ih =>
    obtain ⟨t, p⟩ := c
    intro g hc hle
    simp only [chrono, Bool.and_eq_true, decide_eq_true_eq] at hc
    obtain ⟨hlt, hcr⟩ := hc
    cases hb : SRbuilds g t with
    | true =>
      have hg := add_eq_of_build g t p hb
      have hcreated : (g.AddRTPPacketAndGenerateRtcpSR t p).created_time =
          g.created_time := by rw [hg]
      have hlast : (g.AddRTPPacketAndGenerateRtcpSR t p).last_generated_time = t := by
        rw [hg]
      have hch := ih (g.AddRTPPacketAndGenerateRtcpSR t p)
        (by rw [hlast]; exact hcr)
        (by rw [hlast, hcreated]; exact le_trans hle hlt)
      rw [hlast, hcreated] at hch
      have hiff := (srbuilds_iff g t).mp hb
      simp only [genTrace, hb, if_true]
      exact List.chain'_cons.mpr
        ⟨⟨hlt, by omega, fun h10 => by omega⟩, hch⟩
    | false =>
      have hg := add_eq_of_not_build g t p hb
      have hcreated : (g.AddRTPPacketAndGenerateRtcpSR t p).created_time =
          g.created_time := by rw [hg]
      have hlast : (g.AddRTPPacketAndGenerateRtcpSR t p).last_generated_time =
          g.last_generated_time := by rw [hg]
      have hch := ih (g.AddRTPPacketAndGenerateRtcpSR t p)
        (by rw [hlast]; exact chrono_mono rest g.last_generated_time t hlt hcr)
        (by rw [hlast, hcreated]; exact hle)
      rw [hlast, hcreated] at hch
      simpa [genTrace, hb] using hch

lemma chain_head_bound (T : Nat) (l : List Nat) :
    ∀ x : Nat, List.Chain' (SRgap T) (x :: l) → T ≤ x →
      ∀ t ∈ l, T + 500 < t := by
  induction l with
  | nil =>
    intro x _ _ t ht
    simp at ht
  | cons y rest ih =>
    intro x hch hx t ht
    rw [List.chain'_cons] at hch
    obtain ⟨⟨hxy, hgap, _⟩, hch2⟩ := hch
    rcases List.mem_cons.mp ht with h | h
    · subst h; omega
    · exact ih y hch2 (by omega) t h

/-- C2: for every chronologically timed sequence of
`AddRTPPacketAndGenerateRtcpSR` calls on a generator created at time
`T`, no SR is built at or before `T + 500` ms; consecutive build times
that both fall before `T + 10000` ms are more than 500 ms apart; and a
build at or after `T + 10000` ms comes more than 4999 ms after the
previous build. -/
theorem C2_sender_report_cadence (T ssrc rate : Nat) (calls : List (Nat × RtpPacket))
    (hc : chrono T calls = true) :
    (∀ t ∈ (genTrace (RtcpSRGenerator.create ssrc rate T) calls).2, T + 500 < t) ∧
    List.Chain'
      (fun x y => (x < T + 10000 → y < T + 10000 → 500 < y - x) ∧
        (T + 10000 ≤ y → 4999 < y - x))
      (genTrace (RtcpSRGenerator.create ssrc rate T) calls).2 := by
  have hch := genTrace_chain calls (RtcpSRGenerator.create ssrc rate T) hc (le_refl T)
  constructor
  · exact chain_head_bound T _ T hch (le_refl T)
  · exact List.Chain'.imp
      (fun a b hab => ⟨fun _ _ => hab.2.1, hab.2.2⟩) hch.tail

/-- Concrete instance of the SR cadence theorem: two packets at 600 ms
and 1200 ms on a generator created at 0, both triggering builds. -/
theorem C2_sender_report_cadence_witness :
    chrono 0 [(600, { payload_type := 96, ssrc := 7, timestamp := 4500,
                      payload_size := 100 : RtpPacket }),
              (1200, { payload_type := 96, ssrc := 7, timestamp := 9000,
                       payload_size := 100 : RtpPacket })] = true ∧
    ((∀ t ∈ (genTrace (RtcpSRGenerator.create 7 90000 0)
        [(600, { payload_type := 96, ssrc := 7, timestamp := 4500,
                 payload_size := 100 : RtpPacket }),
         (1200, { payload_type := 96, ssrc := 7, timestamp := 9000,
                  payload_size := 100 : RtpPacket })]).2, 0 + 500 < t) ∧
     List.Chain'
       (fun x y => (x < 0 + 10000 → y < 0 + 10000 → 500 < y - x) ∧
         (0 + 10000 ≤ y → 4999 < y - x))
       (genTrace (RtcpSRGenerator.create 7 90000 0)
        [(600, { payload_type := 96, ssrc := 7, timestamp := 4500,
                 payload_size := 100 : RtpPacket }),
         (1200, { payload_type := 96, ssrc := 7, timestamp := 9000,
                  payload_size := 100 : RtpPacket })]).2) :=
  ⟨by decide, C2_sender_report_cadence 0 7 90000 _ (by decide)⟩

/-- Sum of the payload byte lengths of a packet list. -/
def payloadSum (l : List RtpPacket) : Nat := (l.map RtpPacket.payload_size).sum

/-- Trace of generator calls that also accumulates the packets observed
since the most recent SR build (the accumulator is emptied by each
build, whose report covers it together with the triggering packet). -/
def runAcc (g : RtcpSRGenerator) (acc : List RtpPacket) :
    List (Nat × RtpPacket) → RtcpSRGenerator × List RtpPacket
  | [] => (g, acc)
  | (t, p) :: rest =>
    runAcc (g.AddRTPPacketAndGenerateRtcpSR t p)
      (if SRbuilds g t then [] else acc ++ [p]) rest

lemma runAcc_counts (calls : List (Nat × RtpPacket)) :
    ∀ (g : RtcpSRGenerator) (acc : List RtpPacket),
      g.packet_count = acc.length → g.octec_count = payloadSum acc →
      (runAcc g acc calls).1.packet_count = (runAcc g acc calls).2.length ∧
        (runAcc g acc calls).1.octec_count = payloadSum (runAcc g acc calls).2 := by
  induction calls with
  | nil =>
    intro g acc h1 h2
    simpa [runAcc] using ⟨h1, h2⟩
  | cons c rest ih =>
    obtain ⟨t, p⟩ := c
    intro g acc h1 h2
    cases hb : SRbuilds g t with
    | true =>
      have hg := add_eq_of_build g t p hb
      simp only [runAcc, hb, if_true]
      exact ih _ [] (by rw [hg]; rfl) (by rw [hg]; rfl)
    | false =>
      have hg := add_eq_of_not_build g t p hb
      simp only [runAcc, hb, if_false]
      refine ih _ (acc ++ [p]) (by rw [hg]; simp [h1]) ?_
      rw [hg]
      simp [payloadSum, h2]

/-- C3: when a call triggers an SR build, the built report's packet
count is the number of packets observed since the previous build
(accumulator `A`) plus the triggering packet, its octet count is the
corresponding payload-size sum, and in the same step the counters are
reset to 0, the last-report time is set to the call time and the
emitted-report counter is incremented by one. -/
theorem C3_sr_emission_counts (ssrc rate T : Nat) (calls : List (Nat × RtpPacket))
    (G : RtcpSRGenerator) (A : List RtpPacket) (t : Nat) (p : RtpPacket)
    (hrun : runAcc (RtcpSRGenerator.create ssrc rate T) [] calls = (G, A))
    (hb : SRbuilds G t = true) :
    (G.AddRTPPacketAndGenerateRtcpSR t p).rtcp_packet =
      some (RtcpPacket.build (RtcpInfo.sr
        { sender_ssrc := G.ssrc, msw := ntpMsw p.timestamp G.codec_rate,
          lsw := ntpLsw p.timestamp G.codec_rate, timestamp := p.timestamp,
          packet_count := A.length + 1,
          octet_count := payloadSum A + p.payload_size })) ∧
    (G.AddRTPPacketAndGenerateRtcpSR t p).packet_count = 0 ∧
    (G.AddRTPPacketAndGenerateRtcpSR t p).octec_count = 0 ∧
    (G.AddRTPPacketAndGenerateRtcpSR t p).last_generated_time = t ∧
    (G.AddRTPPacketAndGenerateRtcpSR t p).rtcp_generated_count =
      G.rtcp_generated_count + 1 := by
  have hc := runAcc_counts calls (RtcpSRGenerator.create ssrc rate T) [] rfl rfl
  rw [hrun] at hc
  have hg := add_eq_of_build G t p hb
  rw [hg]
  refine ⟨?_, rfl, rfl, rfl, rfl⟩
  have h1 : G.packet_count = A.length := hc.1
  have h2 : G.octec_count = payloadSum A := hc.2
  rw [h1, h2]

/-- Concrete instance of the SR emission-count theorem: a single
triggering packet at 600 ms after creation at 0, with an empty
pre-history, yields packet count 1 and octet count equal to the
packet's payload size. -/
theorem C3_sr_emission_counts_witness :
    runAcc (RtcpSRGenerator.create 7 90000 0) [] [] =
      (RtcpSRGenerator.create 7 90000 0, []) ∧
    SRbuilds (RtcpSRGenerator.create 7 90000 0) 600 = true ∧
    (((RtcpSRGenerator.create 7 90000 0).AddRTPPacketAndGenerateRtcpSR 600
        { payload_type := 96, ssrc := 7, timestamp := 4500,
          payload_size := 100 : RtpPacket }).rtcp_packet =
      some (RtcpPacket.build (RtcpInfo.sr
        { sender_ssrc := (RtcpSRGenerator.create 7 90000 0).ssrc,
          msw := ntpMsw 4500 (RtcpSRGenerator.create 7 90000 0).codec_rate,
          lsw := ntpLsw 4500 (RtcpSRGenerator.create 7 90000 0).codec_rate,
          timestamp := 4500, packet_count := List.length ([] : List RtpPacket) + 1,
          octet_count := payloadSum [] + 100 })) ∧
     ((RtcpSRGenerator.create 7 90000 0).AddRTPPacketAndGenerateRtcpSR 600
        { payload_type := 96, ssrc := 7, timestamp := 4500,
          payload_size := 100 : RtpPacket }).packet_count = 0 ∧
     ((RtcpSRGenerator.create 7 90000 0).AddRTPPacketAndGenerateRtcpSR 600
        { payload_type := 96, ssrc := 7, timestamp := 4500,
          payload_size := 100 : RtpPacket }).octec_count = 0 ∧
     ((RtcpSRGenerator.create 7 90000 0).AddRTPPacketAndGenerateRtcpSR 600
        { payload_type := 96, ssrc := 7, timestamp := 4500,
          payload_size := 100 : RtpPacket }).last_generated_time = 600 ∧
     ((RtcpSRGenerator.create 7 90000 0).AddRTPPacketAndGenerateRtcpSR 600
        { payload_type := 96, ssrc := 7, timestamp := 4500,
          payload_size := 100 : RtpPacket }).rtcp_generated_count =
       (RtcpSRGenerator.create 7 90000 0).rtcp_generated_count + 1) :=
  ⟨rfl, by decide,
   C3_sr_emission_counts 7 90000 0 [] (RtcpSRGenerator.create 7 90000 0) [] 600
     { payload_type := 96, ssrc := 7, timestamp := 4500, payload_size := 100 }
     rfl (by decide)⟩

lemma classify_cases (data : List Nat) :
    (classifyRtpRtcp data = PacketKind.rtcp ↔
      (128 ≤ data.getD 0 0 ∧ data.getD 0 0 ≤ 191 ∧
        192 ≤ data.getD 1 0 ∧ data.getD 1 0 ≤ 223)) ∧
    (classifyRtpRtcp data = PacketKind.rtp ↔
      (128 ≤ data.getD 0 0 ∧ data.getD 0 0 ≤ 191 ∧
        ¬(192 ≤ data.getD 1 0 ∧ data.getD 1 0 ≤ 223))) ∧
    (classifyRtpRtcp data = PacketKind.reject ↔
      ¬(128 ≤ data.getD 0 0 ∧ data.getD 0 0 ≤ 191)) := by
  unfold classifyRtpRtcp
  generalize data.getD 0 0 = b0
  generalize data.getD 1 0 = b1
  by_cases h1 : 128 ≤ b0 ∧ b0 ≤ 191 <;>
    by_cases h2 : 192 ≤ b1 ∧ b1 ≤ 223 <;>
    simp [h1, h2]

/-- C1: for every datagram at least `RTCP_HEADER_SIZE` bytes long,
processed while Started, `OnDataReceivedFromNextNode` dispatches to
RTCP handling exactly when byte 0 lies in `[128,191]` and byte 1 lies
in `[192,223]`, dispatches to RTP handling exactly when byte 0 lies in
`[128,191]` and byte 1 lies outside `[192,223]`, and returns failure
(with the state unchanged) for every byte-0 value outside `[128,191]`. -/
theorem C1_classification_dispatch (s : RtpRtcp) (parseRtp : List Nat → RtpPacket)
    (parseCompound : List Nat → Option (List RtcpInfo)) (data : List Nat)
    (hs : s.node_state = NodeState.Started) (hl : RTCP_HEADER_SIZE ≤ data.length) :
    (classifyRtpRtcp data = PacketKind.rtcp ↔
      (128 ≤ data.getD 0 0 ∧ data.getD 0 0 ≤ 191 ∧
        192 ≤ data.getD 1 0 ∧ data.getD 1 0 ≤ 223)) ∧
    (classifyRtpRtcp data = PacketKind.rtp ↔
      (128 ≤ data.getD 0 0 ∧ data.getD 0 0 ≤ 191 ∧
        ¬(192 ≤ data.getD 1 0 ∧ data.getD 1 0 ≤ 223))) ∧
    (classifyRtpRtcp data = PacketKind.rtcp →
      s.OnDataReceivedFromNextNode parseRtp parseCompound data =
        s.OnRtcpReceived parseCompound data) ∧
    (classifyRtpRtcp data = PacketKind.rtp →
      s.OnDataReceivedFromNextNode parseRtp parseCompound data =
        s.OnRtpReceived (parseRtp data)) ∧
    (¬(128 ≤ data.getD 0 0 ∧ data.getD 0 0 ≤ 191) →
      s.OnDataReceivedFromNextNode parseRtp parseCompound data = (false, s)) := by
  have hnl : ¬ data.length < RTCP_HEADER_SIZE := Nat.not_lt.mpr hl
  obtain ⟨hA, hB, hC⟩ := classify_cases data
  refine ⟨hA, hB, ?_, ?_, ?_⟩
  · intro h
    simp [RtpRtcp.OnDataReceivedFromNextNode, hs, hnl, h]
  · intro h
    simp [RtpRtcp.OnDataReceivedFromNextNode, hs, hnl, h]
  · intro h
    simp [RtpRtcp.OnDataReceivedFromNextNode, hs, hnl, hC.mpr h]

/-- A Started node with empty tables, used to instantiate the hot-path
theorems. -/
def startedNode : RtpRtcp :=
  { node_state := NodeState.Started, observer := true, rtcp_sr_generators := [],
    tracks := [], rtp_frame_jitter_buffers := [], rtp_minimal_jitter_buffers := [],
    receive_statistics := [], last_sent_rtp_packet := none,
    last_sent_rtcp_packet := none, sent := [], observer_events := [] }

/-- A trivial RTP-parse collaborator for instantiating theorems. -/
def anyRtpParse : List Nat → RtpPacket :=
  fun _ => { payload_type := 0, ssrc := 0, timestamp := 0, payload_size := 0 }

/-- A trivial compound-RTCP-parse collaborator (always a parse error). -/
def noCompoundParse : List Nat → Option (List RtcpInfo) := fun _ => none

/-- Concrete instance of the classification theorem on the datagram
`[128, 200, 0, 0]`. -/
theorem C1_classification_dispatch_witness :
    startedNode.node_state = NodeState.Started ∧
    RTCP_HEADER_SIZE ≤ [128, 200, 0, 0].length ∧
    ((classifyRtpRtcp [128, 200, 0, 0] = PacketKind.rtcp ↔
       (128 ≤ [128, 200, 0, 0].getD 0 0 ∧ [128, 200, 0, 0].getD 0 0 ≤ 191 ∧
         192 ≤ [128, 200, 0, 0].getD 1 0 ∧ [128, 200, 0, 0].getD 1 0 ≤ 223)) ∧
     (classifyRtpRtcp [128, 200, 0, 0] = PacketKind.rtp ↔
       (128 ≤ [128, 200, 0, 0].getD 0 0 ∧ [128, 200, 0, 0].getD 0 0 ≤ 191 ∧
         ¬(192 ≤ [128, 200, 0, 0].getD 1 0 ∧ [128, 200, 0, 0].getD 1 0 ≤ 223))) ∧
     (classifyRtpRtcp [128, 200, 0, 0] = PacketKind.rtcp →
       startedNode.OnDataReceivedFromNextNode anyRtpParse noCompoundParse
           [128, 200, 0, 0] =
         startedNode.OnRtcpReceived noCompoundParse [128, 200, 0, 0]) ∧
     (classifyRtpRtcp [128, 200, 0, 0] = PacketKind.rtp →
       startedNode.OnDataReceivedFromNextNode anyRtpParse noCompoundParse
           [128, 200, 0, 0] =
         startedNode.OnRtpReceived (anyRtpParse [128, 200, 0, 0])) ∧
     (¬(128 ≤ [128, 200, 0, 0].getD 0 0 ∧ [128, 200, 0, 0].getD 0 0 ≤ 191) →
       startedNode.OnDataReceivedFromNextNode anyRtpParse noCompoundParse
           [128, 200, 0, 0] = (false, startedNode))) :=
  ⟨rfl, by decide,
   C1_classification_dispatch startedNode anyRtpParse noCompoundParse
     [128, 200, 0, 0] rfl (by decide)⟩

/-- C8: every datagram shorter than `RTCP_HEADER_SIZE` is rejected by
`OnDataReceivedFromNextNode` while Started with the state unchanged,
and the outcome is the same for every datagram of the same (short)
length regardless of its bytes — no content byte is inspected. -/
theorem C8_short_datagram_rejected (s : RtpRtcp) (parseRtp : List Nat → RtpPacket)
    (parseCompound : List Nat → Option (List RtcpInfo)) (data : List Nat)
    (hs : s.node_state = NodeState.Started)
    (hl : data.length < RTCP_HEADER_SIZE) :
    s.OnDataReceivedFromNextNode parseRtp parseCompound data = (false, s) ∧
    (∀ d2 : List Nat, d2.length = data.length →
      s.OnDataReceivedFromNextNode parseRtp parseCompound d2 = (false, s)) := by
  constructor
  · simp [RtpRtcp.OnDataReceivedFromNextNode, hs, hl]
  · intro d2 h2
    have hl2 : d2.length < RTCP_HEADER_SIZE := by omega
    simp [RtpRtcp.OnDataReceivedFromNextNode, hs, hl2]

/-- Concrete instance of the short-datagram theorem at the length-1
datagram `[128]`. -/
theorem C8_short_datagram_rejected_witness :
    startedNode.node_state = NodeState.Started ∧
    [(128 : Nat)].length < RTCP_HEADER_SIZE ∧
    (startedNode.OnDataReceivedFromNextNode anyRtpParse noCompoundParse [128] =
        (false, startedNode) ∧
     (∀ d2 : List Nat, d2.length = [(128 : Nat)].length →
       startedNode.OnDataReceivedFromNextNode anyRtpParse noCompoundParse d2 =
         (false, startedNode))) :=
  ⟨rfl, by decide,
   C8_short_datagram_rejected startedNode anyRtpParse noCompoundParse [128]
     rfl (by decide)⟩

/-- A Stopped node still holding a statistics entry for SSRC 5
(entries are never removed over the node's lifetime), with three prior
FIR requests recorded. -/
def stoppedNodeWithStat : RtpRtcp :=
  { node_state := NodeState.Stopped, observer := false,
    rtcp_sr_generators := [], tracks := [], rtp_frame_jitter_buffers := [],
    rtp_minimal_jitter_buffers := [],
    receive_statistics := [(5,
      { payload_type := 96, ssrc := 5, timebase_den := 90000,
        receiver_ssrc := 9, packet_records := 10,
        ms_since_last_report_block := 0, fir_request_count := 3,
        sender_reports_received := 0 })],
    last_sent_rtp_packet := none, last_sent_rtcp_packet := none,
    sent := [], observer_events := [] }

/-- A downward transport that accepts every packet. -/
def alwaysOkSend : NodeType → WireData → Bool := fun _ _ => true

/-- C4 counterexample: on a Stopped node that still holds a statistics
entry, `SendFir` does not return failure and does not leave the state
unchanged — the lifecycle check claimed for all hot-path operations is
absent from `SendFir`. -/
theorem C4_counterexample :
    stoppedNodeWithStat.node_state ≠ NodeState.Started ∧
    (stoppedNodeWithStat.SendFir alwaysOkSend 5).1 = true ∧
    (stoppedNodeWithStat.SendFir alwaysOkSend 5).2 ≠ stoppedNodeWithStat := by
  decide

/-- C4 (amended): when the node is not Started, `SendRtpPacket` and
`OnDataReceivedFromNextNode` return failure with the whole state
unchanged; `SendFir` performs no lifecycle check — it returns failure
with the state unchanged exactly when no statistics entry exists for
the SSRC, and with an entry present it proceeds regardless of
lifecycle state, mutating the entry's FIR counter, the last-sent-RTCP
slot and the send log, and returning the transport's result. -/
theorem C4_lifecycle_gating (s : RtpRtcp) (send : NodeType → WireData → Bool)
    (now : Nat) (p : RtpPacket) (parseRtp : List Nat → RtpPacket)
    (parseCompound : List Nat → Option (List RtcpInfo)) (data : List Nat)
    (media_ssrc : Nat) (hs : s.node_state ≠ NodeState.Started) :
    s.SendRtpPacket send now p = (false, s) ∧
    s.OnDataReceivedFromNextNode parseRtp parseCompound data = (false, s) ∧
    (alistFind media_ssrc s.receive_statistics = none →
      s.SendFir send media_ssrc = (false, s)) ∧
    (∀ stat, alistFind media_ssrc s.receive_statistics = some stat →
      s.SendFir send media_ssrc =
        (send NodeType.Rtcp (WireData.rtcp (firPacketFor stat media_ssrc)),
         { s with
           receive_statistics :=
             alistInsert media_ssrc stat.OnFirRequested s.receive_statistics,
           last_sent_rtcp_packet := some (firPacketFor stat media_ssrc),
           sent := s.sent ++
             [(NodeType.Rtcp, WireData.rtcp (firPacketFor stat media_ssrc))] })) := by
  refine ⟨?_, ?_, ?_, ?_⟩
  · simp [RtpRtcp.SendRtpPacket, hs]
  · simp [RtpRtcp.OnDataReceivedFromNextNode, hs]
  · intro h
    simp [RtpRtcp.SendFir, h]
  · intro stat h
    simp [RtpRtcp.SendFir, h]

/-- Concrete instance of the lifecycle-gating theorem on the Stopped
node holding a statistics entry for SSRC 5. -/
theorem C4_lifecycle_gating_witness :
    stoppedNodeWithStat.node_state ≠ NodeState.Started ∧
    (stoppedNodeWithStat.SendRtpPacket alwaysOkSend 0
        { payload_type := 96, ssrc := 7, timestamp := 0, payload_size := 100 } =
      (false, stoppedNodeWithStat) ∧
     stoppedNodeWithStat.OnDataReceivedFromNextNode anyRtpParse noCompoundParse
        [128, 200, 0, 0] = (false, stoppedNodeWithStat) ∧
     (alistFind 6 stoppedNodeWithStat.receive_statistics = none →
       stoppedNodeWithStat.SendFir alwaysOkSend 6 = (false, stoppedNodeWithStat)) ∧
     (∀ stat, alistFind 6 stoppedNodeWithStat.receive_statistics = some stat →
       stoppedNodeWithStat.SendFir alwaysOkSend 6 =
         (alwaysOkSend NodeType.Rtcp (WireData.rtcp (firPacketFor stat 6)),
          { stoppedNodeWithStat with
            receive_statistics :=
              alistInsert 6 stat.OnFirRequested
                stoppedNodeWithStat.receive_statistics,
            last_sent_rtcp_packet := some (firPacketFor stat 6),
            sent := stoppedNodeWithStat.sent ++
              [(NodeType.Rtcp, WireData.rtcp (firPacketFor stat 6))] }))) :=
  ⟨by decide,
   C4_lifecycle_gating stoppedNodeWithStat alwaysOkSend 0
     { payload_type := 96, ssrc := 7, timestamp := 0, payload_size := 100 }
     anyRtpParse noCompoundParse [128, 200, 0, 0] 6 (by decide)⟩

/-- A Ready node with empty tables. -/
def readyNode : RtpRtcp := { startedNode with node_state := NodeState.Ready }

/-- A track whose origin bitstream format falls into the `default`
branch of the registration switch. -/
def unsupportedTrack : MediaTrack :=
  { origin_bitstream := BitstreamFormat.other 33, timebase_den := 90000 }

/-- An H.264 track (supported, frame-reassembling class). -/
def h264Track : MediaTrack :=
  { origin_bitstream := BitstreamFormat.H264_RTP_RFC_6184, timebase_den := 90000 }

/-- C5 counterexample: a registration call made while the node state is
Ready that nevertheless returns failure — `AddRtpReceiver` with an
unsupported origin bitstream format (and it also leaves the track table
mutated rather than unchanged). -/
theorem C5_counterexample :
    readyNode.node_state = NodeState.Ready ∧
    (readyNode.AddRtpReceiver 96 unsupportedTrack).1 = false ∧
    (readyNode.AddRtpReceiver 96 unsupportedTrack).2.tracks ≠ readyNode.tracks := by
  decide

/-- C5 (amended): while Ready, `AddRtcpSRGenerator` always succeeds and
`AddRtpReceiver` succeeds provided the track's origin bitstream format
is one of the four supported formats; in any state other than Ready
both operations return failure and leave the whole state — hence the
SR-scheduler table, the track table and both jitter-buffer tables —
unchanged. -/
theorem C5_registration_gating (s : RtpRtcp) (now payload_type ssrc codec_rate : Nat)
    (track : MediaTrack) :
    (s.node_state = NodeState.Ready →
      (s.AddRtcpSRGenerator now payload_type ssrc codec_rate).1 = true ∧
      (supportedFormat track.origin_bitstream = true →
        (s.AddRtpReceiver payload_type track).1 = true)) ∧
    (s.node_state ≠ NodeState.Ready →
      s.AddRtcpSRGenerator now payload_type ssrc codec_rate = (false, s) ∧
      s.AddRtpReceiver payload_type track = (false, s)) := by
  constructor
  · intro h
    constructor
    · simp [RtpRtcp.AddRtcpSRGenerator, h]
    · intro hf
      cases hb : track.origin_bitstream with
      | H264_RTP_RFC_6184 => simp [RtpRtcp.AddRtpReceiver, h, jitterClass, hb]
      | VP8_RTP_RFC_7741 => simp [RtpRtcp.AddRtpReceiver, h, jitterClass, hb]
      | AAC_MPEG4_GENERIC => simp [RtpRtcp.AddRtpReceiver, h, jitterClass, hb]
      | OPUS_RTP_RFC_7587 => simp [RtpRtcp.AddRtpReceiver, h, jitterClass, hb]
      | other code =>
        rw [hb] at hf
        simp [supportedFormat, jitterClass] at hf
  · intro h
    constructor <;>
      simp [RtpRtcp.AddRtcpSRGenerator, RtpRtcp.AddRtpReceiver, h]

/-- Concrete instances of the registration-gating theorem: success in
Ready with a supported track, failure with unchanged state on a Stopped
node. -/
theorem C5_registration_gating_witness :
    readyNode.node_state = NodeState.Ready ∧
    stoppedNodeWithStat.node_state ≠ NodeState.Ready ∧
    ((readyNode.AddRtcpSRGenerator 0 96 7 90000).1 = true ∧
      (supportedFormat h264Track.origin_bitstream = true →
        (readyNode.AddRtpReceiver 96 h264Track).1 = true)) ∧
    (stoppedNodeWithStat.AddRtcpSRGenerator 0 96 7 90000 =
        (false, stoppedNodeWithStat) ∧
      stoppedNodeWithStat.AddRtpReceiver 96 h264Track =
        (false, stoppedNodeWithStat)) :=
  ⟨rfl, by decide,
   (C5_registration_gating readyNode 0 96 7 90000 h264Track).1 rfl,
   (C5_registration_gating stoppedNodeWithStat 0 96 7 90000 h264Track).2 (by decide)⟩

/-- C9: `AddRtpReceiver` called while Ready with a track of unsupported
origin bitstream format returns failure, yet the track table of the
resulting state already maps the payload type to the new track, while
both jitter-buffer tables are left exactly as they were — so a payload
type whose buffer tables held no entry ends up with a track and no
jitter buffer of either kind. -/
theorem C9_add_receiver_nonatomic (s : RtpRtcp) (payload_type : Nat)
    (track : MediaTrack) (hs : s.node_state = NodeState.Ready)
    (hf : supportedFormat track.origin_bitstream = false) :
    (s.AddRtpReceiver payload_type track).1 = false ∧
    alistFind payload_type (s.AddRtpReceiver payload_type track).2.tracks =
      some track ∧
    (s.AddRtpReceiver payload_type track).2.rtp_frame_jitter_buffers =
      s.rtp_frame_jitter_buffers ∧
    (s.AddRtpReceiver payload_type track).2.rtp_minimal_jitter_buffers =
      s.rtp_minimal_jitter_buffers := by
  have h0 : jitterClass track.origin_bitstream = 0 := by
    by_contra hne
    simp [supportedFormat, hne] at hf
  simp [RtpRtcp.AddRtpReceiver, hs, h0, alistFind_insert_self]

/-- Concrete instance of the non-atomic registration theorem on a Ready
node with empty tables and an unsupported track at payload type 96. -/
theorem C9_add_receiver_nonatomic_witness :
    readyNode.node_state = NodeState.Ready ∧
    supportedFormat unsupportedTrack.origin_bitstream = false ∧
    ((readyNode.AddRtpReceiver 96 unsupportedTrack).1 = false ∧
     alistFind 96 (readyNode.AddRtpReceiver 96 unsupportedTrack).2.tracks =
       some unsupportedTrack ∧
     (readyNode.AddRtpReceiver 96 unsupportedTrack).2.rtp_frame_jitter_buffers =
       readyNode.rtp_frame_jitter_buffers ∧
     (readyNode.AddRtpReceiver 96 unsupportedTrack).2.rtp_minimal_jitter_buffers =
       readyNode.rtp_minimal_jitter_buffers) :=
  ⟨rfl, by decide,
   C9_add_receiver_nonatomic readyNode 96 unsupportedTrack rfl (by decide)⟩

lemma sendFir_found (s : RtpRtcp) (send : NodeType → WireData → Bool) (z : Nat)
    (stat : RtpReceiveStatistics)
    (h : alistFind z s.receive_statistics = some stat) :
    s.SendFir send z =
      (send NodeType.Rtcp (WireData.rtcp (firPacketFor stat z)),
       { s with
         receive_statistics := alistInsert z stat.OnFirRequested s.receive_statistics,
         last_sent_rtcp_packet := some (firPacketFor stat z),
         sent := s.sent ++ [(NodeType.Rtcp, WireData.rtcp (firPacketFor stat z))] }) := by
  simp [RtpRtcp.SendFir, h]

/-- The FIR sequence number carried by the packet in the last-sent-RTCP
slot, when that packet is a FIR. -/
def firSeqOfLast (s : RtpRtcp) : Option Nat :=
  match s.last_sent_rtcp_packet with
  | some pkt =>
    match pkt.info with
    | RtcpInfo.fir f => some (f.messages.headD (0, 0)).2
    | _ => none
  | none => none

/-- C6: with a statistics entry present for the SSRC, two successive
`SendFir` calls carry sequence numbers `c % 256` and `(c + 1) % 256`
(`c` the entry's FIR-request counter, which `OnFirRequested` increments
by one per call), i.e. the sequence increases by exactly 1 modulo 256,
wrapping from 255 to 0; `SendFir` for an SSRC with no statistics entry
returns failure with the state unchanged. -/
theorem C6_fir_sequence (s : RtpRtcp) (send : NodeType → WireData → Bool)
    (media_ssrc : Nat) (stat : RtpReceiveStatistics)
    (h : alistFind media_ssrc s.receive_statistics = some stat) :
    firSeqOfLast (s.SendFir send media_ssrc).2 =
      some (stat.fir_request_count % 256) ∧
    firSeqOfLast ((s.SendFir send media_ssrc).2.SendFir send media_ssrc).2 =
      some ((stat.fir_request_count + 1) % 256) ∧
    (stat.fir_request_count + 1) % 256 =
      (stat.fir_request_count % 256 + 1) % 256 ∧
    (∀ (s2 : RtpRtcp) (z : Nat), alistFind z s2.receive_statistics = none →
      s2.SendFir send z = (false, s2)) := by
  have e1 := sendFir_found s send media_ssrc stat h
  have hfind : alistFind media_ssrc
      ((s.SendFir send media_ssrc).2).receive_statistics =
        some stat.OnFirRequested := by
    rw [e1]
    exact alistFind_insert_self media_ssrc stat.OnFirRequested s.receive_statistics
  have e2 := sendFir_found ((s.SendFir send media_ssrc).2) send media_ssrc
    stat.OnFirRequested hfind
  refine ⟨?_, ?_, by omega, ?_⟩
  · rw [e1]
    simp [firSeqOfLast, firPacketFor, RtcpPacket.build,
      RtpReceiveStatistics.GetNumberOfFirRequests]
  · rw [e2]
    simp [firSeqOfLast, firPacketFor, RtcpPacket.build,
      RtpReceiveStatistics.GetNumberOfFirRequests,
      RtpReceiveStatistics.OnFirRequested]
  · intro s2 z hz
    simp [RtpRtcp.SendFir, hz]

/-- A node whose statistics entry for SSRC 5 has 255 FIR requests
recorded, exhibiting the wrap from 255 to 0. -/
def nodeFir255 : RtpRtcp :=
  { stoppedNodeWithStat with
    receive_statistics := [(5,
      { payload_type := 96, ssrc := 5, timebase_den := 90000,
        receiver_ssrc := 9, packet_records := 10,
        ms_since_last_report_block := 0, fir_request_count := 255,
        sender_reports_received := 0 })] }

/-- Concrete instance of the FIR sequence theorem at the wrap point:
sequence 255 on the first call, 0 on the second. -/
theorem C6_fir_sequence_witness :
    alistFind 5 nodeFir255.receive_statistics =
      some { payload_type := 96, ssrc := 5, timebase_den := 90000,
             receiver_ssrc := 9, packet_records := 10,
             ms_since_last_report_block := 0, fir_request_count := 255,
             sender_reports_received := 0 } ∧
    (firSeqOfLast (nodeFir255.SendFir alwaysOkSend 5).2 = some (255 % 256) ∧
     firSeqOfLast ((nodeFir255.SendFir alwaysOkSend 5).2.SendFir alwaysOkSend 5).2 =
       some ((255 + 1) % 256) ∧
     (255 + 1) % 256 = (255 % 256 + 1) % 256 ∧
     (∀ (s2 : RtpRtcp) (z : Nat), alistFind z s2.receive_statistics = none →
       s2.SendFir alwaysOkSend z = (false, s2))) :=
  ⟨by decide,
   C6_fir_sequence nodeFir255 alwaysOkSend 5
     { payload_type := 96, ssrc := 5, timebase_den := 90000,
       receiver_ssrc := 9, packet_records := 10,
       ms_since_last_report_block := 0, fir_request_count := 255,
       sender_reports_received := 0 } (by decide)⟩

/-- C7: while Started, `SendRtpPacket` returns exactly the transport's
result for the RTP packet itself (whatever the SR send returned) and
remembers the packet as last sent RTP; when the registered generator's
call leaves an SR pending, that SR is consumed (the stored generator
keeps no pending packet), remembered as last sent RTCP, and handed to
the transport before the RTP packet in the send log. -/
theorem C7_sr_sent_before_rtp (s : RtpRtcp) (send : NodeType → WireData → Bool)
    (now : Nat) (p : RtpPacket) (hs : s.node_state = NodeState.Started) :
    (s.SendRtpPacket send now p).1 = send NodeType.Rtp (WireData.rtp p) ∧
    (s.SendRtpPacket send now p).2.last_sent_rtp_packet = some p ∧
    (∀ gen pkt, alistFind p.payload_type s.rtcp_sr_generators = some gen →
      (gen.AddRTPPacketAndGenerateRtcpSR now p).rtcp_packet = some pkt →
      (s.SendRtpPacket send now p).2.last_sent_rtcp_packet = some pkt ∧
      (s.SendRtpPacket send now p).2.sent =
        s.sent ++ [(NodeType.Rtcp, WireData.rtcp pkt),
                   (NodeType.Rtp, WireData.rtp p)] ∧
      alistFind p.payload_type (s.SendRtpPacket send now p).2.rtcp_sr_generators =
        some { gen.AddRTPPacketAndGenerateRtcpSR now p with rtcp_packet := none }) := by
  refine ⟨?_, ?_, ?_⟩
  · simp [RtpRtcp.SendRtpPacket, hs]
  · simp [RtpRtcp.SendRtpPacket, hs]
  · intro gen pkt hfind hpkt
    simp [RtpRtcp.SendRtpPacket, hs, hfind, hpkt, alistFind_insert_self]

/-- A Started node with an SR generator registered for payload type 96,
created at time 0. -/
def startedNodeWithGen : RtpRtcp :=
  { startedNode with
    rtcp_sr_generators := [(96, RtcpSRGenerator.create 7 90000 0)] }

/-- A downward transport that fails RTCP sends and accepts RTP sends,
exhibiting that an SR send failure does not block the RTP forward. -/
def rtcpFailingSend : NodeType → WireData → Bool :=
  fun nt _ => match nt with
    | NodeType.Rtcp => false
    | NodeType.Rtp => true

/-- Concrete instance of the SR-before-RTP theorem: at 600 ms the
generator emits an SR, the transport rejects it, and the RTP packet is
still forwarded with overall result true. -/
theorem C7_sr_sent_before_rtp_witness :
    startedNodeWithGen.node_state = NodeState.Started ∧
    ((startedNodeWithGen.SendRtpPacket rtcpFailingSend 600
        { payload_type := 96, ssrc := 7, timestamp := 4500,
          payload_size := 100 }).1 =
      rtcpFailingSend NodeType.Rtp (WireData.rtp
        { payload_type := 96, ssrc := 7, timestamp := 4500,
          payload_size := 100 }) ∧
     (startedNodeWithGen.SendRtpPacket rtcpFailingSend 600
        { payload_type := 96, ssrc := 7, timestamp := 4500,
          payload_size := 100 }).2.last_sent_rtp_packet =
       some { payload_type := 96, ssrc := 7, timestamp := 4500,
              payload_size := 100 } ∧
     (∀ gen pkt,
       alistFind 96 startedNodeWithGen.rtcp_sr_generators = some gen →
       (gen.AddRTPPacketAndGenerateRtcpSR 600
          { payload_type := 96, ssrc := 7, timestamp := 4500,
            payload_size := 100 }).rtcp_packet = some pkt →
       (startedNodeWithGen.SendRtpPacket rtcpFailingSend 600
          { payload_type := 96, ssrc := 7, timestamp := 4500,
            payload_size := 100 }).2.last_sent_rtcp_packet = some pkt ∧
       (startedNodeWithGen.SendRtpPacket rtcpFailingSend 600
          { payload_type := 96, ssrc := 7, timestamp := 4500,
            payload_size := 100 }).2.sent =
         startedNodeWithGen.sent ++
           [(NodeType.Rtcp, WireData.rtcp pkt),
            (NodeType.Rtp, WireData.rtp
              { payload_type := 96, ssrc := 7, timestamp := 4500,
                payload_size := 100 })] ∧
       alistFind 96 (startedNodeWithGen.SendRtpPacket rtcpFailingSend 600
          { payload_type := 96, ssrc := 7, timestamp := 4500,
            payload_size := 100 }).2.rtcp_sr_generators =
         some { gen.AddRTPPacketAndGenerateRtcpSR 600
                  { payload_type := 96, ssrc := 7, timestamp := 4500,
                    payload_size := 100 } with rtcp_packet := none })) :=
  ⟨rfl,
   C7_sr_sent_before_rtp startedNodeWithGen rtcpFailingSend 600
     { payload_type := 96, ssrc := 7, timestamp := 4500, payload_size := 100 }
     rfl⟩

/-- C10: in `OnRtpReceived`, the statistics entry is created-or-updated
and any due Receiver Report is built, remembered and sent, all before
the jitter-buffer lookup; hence for a packet whose payload type has a
registered track but whose selected jitter-buffer table holds no entry,
the call returns failure while the statistics table is already mutated,
and when the receiver-report interval has elapsed the RR is already in
the last-sent-RTCP slot and in the send log. -/
theorem C10_stats_updated_before_jitter_lookup (s : RtpRtcp) (p : RtpPacket)
    (track : MediaTrack)
    (ht : alistFind p.payload_type s.tracks = some track) :
    (jitterClass track.origin_bitstream = 1 →
      alistFind p.payload_type s.rtp_frame_jitter_buffers = none →
      (s.OnRtpReceived p).1 = false ∧
      (s.OnRtpReceived p).2.receive_statistics =
        alistInsert p.ssrc (s.statForPacket track p) s.receive_statistics ∧
      ((s.statForPacket track p).HasElapsedSinceLastReportBlock
          RECEIVER_REPORT_CYCLE_MS = true →
        (s.OnRtpReceived p).2.last_sent_rtcp_packet =
          some (rrPacketFor (s.statForPacket track p) p) ∧
        (s.OnRtpReceived p).2.sent =
          s.sent ++ [(NodeType.Rtcp,
            WireData.rtcp (rrPacketFor (s.statForPacket track p) p))])) ∧
    (jitterClass track.origin_bitstream = 2 →
      alistFind p.payload_type s.rtp_minimal_jitter_buffers = none →
      (s.OnRtpReceived p).1 = false ∧
      (s.OnRtpReceived p).2.receive_statistics =
        alistInsert p.ssrc (s.statForPacket track p) s.receive_statistics ∧
      ((s.statForPacket track p).HasElapsedSinceLastReportBlock
          RECEIVER_REPORT_CYCLE_MS = true →
        (s.OnRtpReceived p).2.last_sent_rtcp_packet =
          some (rrPacketFor (s.statForPacket track p) p) ∧
        (s.OnRtpReceived p).2.sent =
          s.sent ++ [(NodeType.Rtcp,
            WireData.rtcp (rrPacketFor (s.statForPacket track p) p))])) := by
  constructor
  · intro h1 hb
    cases he : (s.statForPacket track p).HasElapsedSinceLastReportBlock
        RECEIVER_REPORT_CYCLE_MS with
    | false => simp [RtpRtcp.OnRtpReceived, ht, h1, hb, he]
    | true => simp [RtpRtcp.OnRtpReceived, ht, h1, hb, he]
  · intro h2 hb
    cases he : (s.statForPacket track p).HasElapsedSinceLastReportBlock
        RECEIVER_REPORT_CYCLE_MS with
    | false => simp [RtpRtcp.OnRtpReceived, ht, h2, hb, he]
    | true => simp [RtpRtcp.OnRtpReceived, ht, h2, hb, he]

/-- A Started node with an H.264 track registered for payload type 96
but no jitter buffer of either kind, and a statistics entry for SSRC 7
whose receiver-report interval has elapsed. -/
def nodeTrackNoBuffer : RtpRtcp :=
  { startedNode with
    tracks := [(96, h264Track)],
    receive_statistics := [(7,
      { payload_type := 96, ssrc := 7, timebase_den := 90000,
        receiver_ssrc := 9, packet_records := 10,
        ms_since_last_report_block := 1000, fir_request_count := 0,
        sender_reports_received := 0 })] }

/-- The concrete packet used by the stats-before-jitter witness. -/
def pkt96 : RtpPacket :=
  { payload_type := 96, ssrc := 7, timestamp := 4500, payload_size := 100 }

/-- Concrete instance of the stats-before-jitter theorem: the frame
class applies, the buffer lookup fails, the call returns false, and the
RR was emitted beforehand. -/
theorem C10_stats_updated_before_jitter_lookup_witness :
    alistFind pkt96.payload_type nodeTrackNoBuffer.tracks = some h264Track ∧
    ((jitterClass h264Track.origin_bitstream = 1 →
       alistFind pkt96.payload_type nodeTrackNoBuffer.rtp_frame_jitter_buffers =
         none →
       (nodeTrackNoBuffer.OnRtpReceived pkt96).1 = false ∧
       (nodeTrackNoBuffer.OnRtpReceived pkt96).2.receive_statistics =
         alistInsert pkt96.ssrc
           (nodeTrackNoBuffer.statForPacket h264Track pkt96)
           nodeTrackNoBuffer.receive_statistics ∧
       ((nodeTrackNoBuffer.statForPacket h264Track
           pkt96).HasElapsedSinceLastReportBlock RECEIVER_REPORT_CYCLE_MS = true →
         (nodeTrackNoBuffer.OnRtpReceived pkt96).2.last_sent_rtcp_packet =
           some (rrPacketFor (nodeTrackNoBuffer.statForPacket h264Track pkt96)
             pkt96) ∧
         (nodeTrackNoBuffer.OnRtpReceived pkt96).2.sent =
           nodeTrackNoBuffer.sent ++ [(NodeType.Rtcp, WireData.rtcp
             (rrPacketFor (nodeTrackNoBuffer.statForPacket h264Track pkt96)
               pkt96))])) ∧
     (jitterClass h264Track.origin_bitstream = 2 →
       alistFind pkt96.payload_type nodeTrackNoBuffer.rtp_minimal_jitter_buffers =
         none →
       (nodeTrackNoBuffer.OnRtpReceived pkt96).1 = false ∧
       (nodeTrackNoBuffer.OnRtpReceived pkt96).2.receive_statistics =
         alistInsert pkt96.ssrc
           (nodeTrackNoBuffer.statForPacket h264Track pkt96)
           nodeTrackNoBuffer.receive_statistics ∧
       ((nodeTrackNoBuffer.statForPacket h264Track
           pkt96).HasElapsedSinceLastReportBlock RECEIVER_REPORT_CYCLE_MS = true →
         (nodeTrackNoBuffer.OnRtpReceived pkt96).2.last_sent_rtcp_packet =
           some (rrPacketFor (nodeTrackNoBuffer.statForPacket h264Track pkt96)
             pkt96) ∧
         (nodeTrackNoBuffer.OnRtpReceived pkt96).2.sent =
           nodeTrackNoBuffer.sent ++ [(NodeType.Rtcp, WireData.rtcp
             (rrPacketFor (nodeTrackNoBuffer.statForPacket h264Track pkt96)
               pkt96))]))) :=
  ⟨by decide,
   C10_stats_updated_before_jitter_lookup nodeTrackNoBuffer pkt96 h264Track
     (by decide)⟩
